import Mathlib

/-!
Verification of the mars-rover coordinate/movement core (`src/App.tsx`).

The rover state, the coordinate wrapper, the mover, the rotator and the
collision detector are shallowly embedded below.  JavaScript `number`
coordinates are modelled as rationals (`ℚ`): every operation the core
performs on them is addition, subtraction and order comparison, which are
exact.  The only real-valued mathematics (`Real.sqrt`, `Real.log`,
`Real.tan`) appears in the Mercator projection and in the specification-level
statement of the collision distance.
-/

namespace MarsRover

/-- An obstacle, `{ lat, lon }` in `App.tsx`. -/
structure Obstacle where
  lat : ℚ
  lon : ℚ
  deriving DecidableEq, Repr

/-- The `{ lat, lon }` record returned by `wrapCoordinates`. -/
structure Coordinates where
  lat : ℚ
  lon : ℚ
  deriving DecidableEq, Repr

/-- The rover's heading, the string `'N' | 'E' | 'S' | 'W'` in `App.tsx`. -/
inductive Orientation where
  | N | E | S | W
  deriving DecidableEq, BEq, Repr, Inhabited

/-- The rover state `roverPosition = { lat, lon, orientation }`. -/
structure RoverPosition where
  lat : ℚ
  lon : ℚ
  orientation : Orientation
  deriving DecidableEq, Repr

/-- Initial state set by `useState` in `App.tsx`: `{ lat: 0, lon: 0, orientation: 'N' }`. -/
def initialRoverPosition : RoverPosition :=
  { lat := 0, lon := 0, orientation := Orientation.N }

/-- `wrapCoordinates` from `App.tsx`: wrap longitude into `[-180, 180]` and
latitude into `[-90, 90]`, each by a single conditional shift. -/
def wrapCoordinates (latitude longitude : ℚ) : Coordinates :=
  let wrappedLon :=
    if longitude > 180 then -360 + longitude
    else if longitude < -180 then 360 + longitude
    else longitude
  let wrappedLat :=
    if latitude > 90 then -180 + latitude
    else if latitude < -90 then 180 + latitude
    else latitude
  { lat := wrappedLat, lon := wrappedLon }

/-- The latitude half of `wrapCoordinates`, as a scalar function. -/
def wrapLat (x : ℚ) : ℚ :=
  if x > 90 then -180 + x else if x < -90 then 180 + x else x

/-- The longitude half of `wrapCoordinates`, as a scalar function. -/
def wrapLon (x : ℚ) : ℚ :=
  if x > 180 then -360 + x else if x < -180 then 360 + x else x

/-- The module constant `collisionThreshold = 8` in `App.tsx`. -/
def collisionThreshold : ℚ := 8

/-- The constant `moveStep = 10` inside `move` in `App.tsx`. -/
def moveStep : ℚ := 10

/-- `isCollision` from `App.tsx`, with the obstacle list and the threshold as
explicit parameters (in the source they are the module-level `obstacles` and
`collisionThreshold`).  The source compares
`Math.sqrt((o.lat-lat)^2 + (o.lon-lon)^2) < threshold`; since the radicand
`d` is nonnegative, `Real.sqrt d < t ↔ 0 < t ∧ d < t^2`
(lemma `sqrt_lt_threshold_iff` below), and the right-hand side is the exact,
executable test used here. -/
def isCollision (newLat newLon : ℚ) (field : List Obstacle) (threshold : ℚ) : Bool :=
  field.any fun obstacle =>
    let distanceSq := (obstacle.lat - newLat) ^ 2 + (obstacle.lon - newLon) ^ 2
    decide (0 < threshold ∧ distanceSq < threshold ^ 2)

/-- The candidate latitude computed by `move` in `App.tsx`:
`proposedLat += forward ? moveStep : -moveStep` for heading N, the opposite
sign for heading S, unchanged otherwise. -/
def proposedLat (forward : Bool) (r : RoverPosition) : ℚ :=
  if r.orientation = Orientation.N then
    r.lat + (if forward then moveStep else -moveStep)
  else if r.orientation = Orientation.S then
    r.lat + (if forward then -moveStep else moveStep)
  else r.lat

/-- The candidate longitude computed by `move` in `App.tsx`:
changed only for headings E and W. -/
def proposedLon (forward : Bool) (r : RoverPosition) : ℚ :=
  if r.orientation = Orientation.E then
    r.lon + (if forward then moveStep else -moveStep)
  else if r.orientation = Orientation.W then
    r.lon + (if forward then -moveStep else moveStep)
  else r.lon

/-- `move` from `App.tsx`: wrap the candidate position, then either reject
(collision: the `alert` branch leaves `roverPosition` untouched) or commit the
wrapped coordinates, keeping the orientation. -/
def move (forward : Bool) (field : List Obstacle) (r : RoverPosition) : RoverPosition :=
  let wrappedCoordinates := wrapCoordinates (proposedLat forward r) (proposedLon forward r)
  if isCollision wrappedCoordinates.lat wrappedCoordinates.lon field collisionThreshold then r
  else { r with lat := wrappedCoordinates.lat, lon := wrappedCoordinates.lon }

/-- The cyclic order `['N', 'E', 'S', 'W']` used by `rotate` in `App.tsx`. -/
def orientations : List Orientation :=
  [Orientation.N, Orientation.E, Orientation.S, Orientation.W]

/-- `rotate` from `App.tsx`: index arithmetic `(i + 3) % 4` for left and
`(i + 1) % 4` for right over `orientations`; position untouched. -/
def rotate (left : Bool) (r : RoverPosition) : RoverPosition :=
  let currentIndex := orientations.indexOf r.orientation
  let newOrientationIndex := if left then (currentIndex + 3) % 4 else (currentIndex + 1) % 4
  { r with orientation := orientations.getD newOrientationIndex Orientation.N }

/-- A user command: `move(forward?)` (keys f/b) or `rotate(left?)` (keys l/r). -/
inductive Command where
  | move (forward : Bool)
  | rotate (left : Bool)
  deriving DecidableEq, Repr

/-- One command applied to the rover state. -/
def step (field : List Obstacle) (r : RoverPosition) : Command → RoverPosition
  | Command.move forward => move forward field r
  | Command.rotate left => rotate left r

/-- A whole session: the commands applied in order from a starting state. -/
def run (field : List Obstacle) (cmds : List Command) (r : RoverPosition) : RoverPosition :=
  cmds.foldl (step field) r

/-- The Position invariant of the spec (§3): committed coordinates stay in
`[-90, 90] × [-180, 180]`. -/
def PosInvariant (r : RoverPosition) : Prop :=
  -90 ≤ r.lat ∧ r.lat ≤ 90 ∧ -180 ≤ r.lon ∧ r.lon ≤ 180

/-- `toRadians` from `App.tsx`. -/
noncomputable def toRadians (degrees : ℝ) : ℝ := degrees * (Real.pi / 180)

/-- The canvas side length `gridSize = 600` in `App.tsx`. -/
def gridSize : ℝ := 600

/-- `mercatorProjection` from `App.tsx`: clamp to `±89.99` then
`ln(tan(π/4 + toRadians(lat)/2))`. -/
noncomputable def mercatorProjection (latitude : ℝ) : ℝ :=
  let clampedLatitude := max (min latitude 89.99) (-89.99)
  Real.log (Real.tan (Real.pi / 4 + toRadians clampedLatitude / 2))

/-- The normalized vertical coordinate computed in `App.tsx` (the factor of
the `y` expression before scaling by `gridSize`). -/
noncomputable def normalizedY (latitude : ℝ) : ℝ :=
  1 - (mercatorProjection latitude - mercatorProjection (-90)) /
      (mercatorProjection 90 - mercatorProjection (-90))

/-- The canvas `y` coordinate of `App.tsx`, `normalizedY * gridSize`. -/
noncomputable def canvasY (latitude : ℝ) : ℝ := normalizedY latitude * gridSize

end MarsRover

namespace MarsRover

/-! ### Rotation lemmas -/

lemma rotate_right_N (lat lon : ℚ) :
    rotate false ⟨lat, lon, Orientation.N⟩ = ⟨lat, lon, Orientation.E⟩ := by
  simp only [rotate]; congr 1

lemma rotate_right_E (lat lon : ℚ) :
    rotate false ⟨lat, lon, Orientation.E⟩ = ⟨lat, lon, Orientation.S⟩ := by
  simp only [rotate]; congr 1

lemma rotate_right_S (lat lon : ℚ) :
    rotate false ⟨lat, lon, Orientation.S⟩ = ⟨lat, lon, Orientation.W⟩ := by
  simp only [rotate]; congr 1

lemma rotate_right_W (lat lon : ℚ) :
    rotate false ⟨lat, lon, Orientation.W⟩ = ⟨lat, lon, Orientation.N⟩ := by
  simp only [rotate]; congr 1

lemma rotate_left_N (lat lon : ℚ) :
    rotate true ⟨lat, lon, Orientation.N⟩ = ⟨lat, lon, Orientation.W⟩ := by
  simp only [rotate]; congr 1

lemma rotate_left_E (lat lon : ℚ) :
    rotate true ⟨lat, lon, Orientation.E⟩ = ⟨lat, lon, Orientation.N⟩ := by
  simp only [rotate]; congr 1

lemma rotate_left_S (lat lon : ℚ) :
    rotate true ⟨lat, lon, Orientation.S⟩ = ⟨lat, lon, Orientation.E⟩ := by
  simp only [rotate]; congr 1

lemma rotate_left_W (lat lon : ℚ) :
    rotate true ⟨lat, lon, Orientation.W⟩ = ⟨lat, lon, Orientation.S⟩ := by
  simp only [rotate]; congr 1

lemma rotate_lat (left : Bool) (r : RoverPosition) : (rotate left r).lat = r.lat := rfl

lemma rotate_lon (left : Bool) (r : RoverPosition) : (rotate left r).lon = r.lon := rfl

lemma move_orientation (forward : Bool) (field : List Obstacle) (r : RoverPosition) :
    (move forward field r).orientation = r.orientation := by
  simp only [move]
  split <;> rfl

/-- C7: Rotation cycle laws.  Rotating right (`rotate false`) four times is
the identity; left-then-right and right-then-left are the identity; left
rotation sends the heading's index in `['N','E','S','W']` to `(i + 3) % 4`
and right rotation to `(i + 1) % 4`.  Rotation is a total function on the
state type, so it always succeeds with no failure mode. -/
theorem rotation_cycle_laws :
    (∀ r : RoverPosition, rotate false (rotate false (rotate false (rotate false r))) = r)
    ∧ (∀ r : RoverPosition, rotate false (rotate true r) = r)
    ∧ (∀ r : RoverPosition, rotate true (rotate false r) = r)
    ∧ (∀ r : RoverPosition,
        orientations.indexOf (rotate true r).orientation
          = (orientations.indexOf r.orientation + 3) % 4)
    ∧ (∀ r : RoverPosition,
        orientations.indexOf (rotate false r).orientation
          = (orientations.indexOf r.orientation + 1) % 4) := by
  refine ⟨?_, ?_, ?_, ?_, ?_⟩ <;> intro r <;> obtain ⟨lat, lon, o⟩ := r <;> cases o <;>
    simp only [rotate_right_N, rotate_right_E, rotate_right_S, rotate_right_W,
      rotate_left_N, rotate_left_E, rotate_left_S, rotate_left_W] <;> decide

/-- C6: Frame independence.  `rotate` never changes the position and `move`
never changes the heading, whether the move commits or is rejected. -/
theorem move_rotate_frame_independence :
    (∀ (left : Bool) (r : RoverPosition),
        (rotate left r).lat = r.lat ∧ (rotate left r).lon = r.lon)
    ∧ (∀ (forward : Bool) (field : List Obstacle) (r : RoverPosition),
        (move forward field r).orientation = r.orientation) :=
  ⟨fun left r => ⟨rotate_lat left r, rotate_lon left r⟩, move_orientation⟩

end MarsRover

namespace MarsRover

/-! ### Wrapper lemmas -/

lemma wrap_lat_eq (lat lon : ℚ) :
    (wrapCoordinates lat lon).lat =
      if lat > 90 then -180 + lat else if lat < -90 then 180 + lat else lat := rfl

lemma wrap_lon_eq (lat lon : ℚ) :
    (wrapCoordinates lat lon).lon =
      if lon > 180 then -360 + lon else if lon < -180 then 360 + lon else lon := rfl

lemma wrap_bounds (lat lon : ℚ)
    (h₁ : -180 ≤ lat) (h₂ : lat ≤ 270) (h₃ : -360 ≤ lon) (h₄ : lon ≤ 360) :
    -90 ≤ (wrapCoordinates lat lon).lat ∧ (wrapCoordinates lat lon).lat ≤ 90 ∧
      -180 ≤ (wrapCoordinates lat lon).lon ∧ (wrapCoordinates lat lon).lon ≤ 180 := by
  simp only [wrap_lat_eq, wrap_lon_eq]
  split_ifs <;> refine ⟨by linarith, by linarith, by linarith, by linarith⟩

lemma wrap_of_in_range (lat lon : ℚ)
    (h₁ : -90 ≤ lat) (h₂ : lat ≤ 90) (h₃ : -180 ≤ lon) (h₄ : lon ≤ 180) :
    wrapCoordinates lat lon = ⟨lat, lon⟩ := by
  simp only [wrapCoordinates]
  rw [if_neg (by linarith), if_neg (by linarith), if_neg (by linarith), if_neg (by linarith)]

/-! ### Collision detector lemmas -/

lemma sqrt_lt_threshold_iff (d t : ℚ) :
    Real.sqrt (d : ℝ) < (t : ℝ) ↔ 0 < t ∧ d < t ^ 2 := by
  constructor
  · intro h
    have ht : (0 : ℝ) < (t : ℝ) := lt_of_le_of_lt (Real.sqrt_nonneg _) h
    have ht' : 0 < t := by exact_mod_cast ht
    refine ⟨ht', ?_⟩
    have := (Real.sqrt_lt' ht).mp h
    exact_mod_cast this
  · rintro ⟨ht, hlt⟩
    have ht' : (0 : ℝ) < (t : ℝ) := by exact_mod_cast ht
    exact (Real.sqrt_lt' ht').mpr (by exact_mod_cast hlt)

lemma isCollision_true_iff (newLat newLon t : ℚ) (field : List Obstacle) :
    isCollision newLat newLon field t = true ↔
      ∃ o ∈ field,
        Real.sqrt (((o.lat : ℝ) - (newLat : ℝ)) ^ 2 + ((o.lon : ℝ) - (newLon : ℝ)) ^ 2)
          < (t : ℝ) := by
  unfold isCollision
  rw [List.any_eq_true]
  refine exists_congr fun o => and_congr_right fun _ => ?_
  simp only [decide_eq_true_eq]
  rw [← sqrt_lt_threshold_iff]
  push_cast
  ring_nf

lemma isCollision_nil (newLat newLon t : ℚ) :
    isCollision newLat newLon [] t = false := rfl

/-! ### Claims C2, C3, C4 -/

/-- C2: Wrap postcondition on one-step overflow.  For `lat ∈ [-180, 270]` and
`lon ∈ [-360, 360]` the result of `wrapCoordinates` satisfies the Position
invariant, longitude is corrected by `-360` when `lon > 180` and by `+360`
when `lon < -180`, and latitude by `-180` when `lat > 90` and by `+180` when
`lat < -90`. -/
theorem wrap_one_step_postcondition (lat lon : ℚ)
    (h₁ : -180 ≤ lat) (h₂ : lat ≤ 270) (h₃ : -360 ≤ lon) (h₄ : lon ≤ 360) :
    (-90 ≤ (wrapCoordinates lat lon).lat ∧ (wrapCoordinates lat lon).lat ≤ 90 ∧
      -180 ≤ (wrapCoordinates lat lon).lon ∧ (wrapCoordinates lat lon).lon ≤ 180)
    ∧ (lon > 180 → (wrapCoordinates lat lon).lon = lon - 360)
    ∧ (lon < -180 → (wrapCoordinates lat lon).lon = lon + 360)
    ∧ (lat > 90 → (wrapCoordinates lat lon).lat = lat - 180)
    ∧ (lat < -90 → (wrapCoordinates lat lon).lat = lat + 180) := by
  refine ⟨wrap_bounds lat lon h₁ h₂ h₃ h₄, ?_, ?_, ?_, ?_⟩ <;>
    · intro h
      simp only [wrap_lat_eq, wrap_lon_eq]
      split_ifs <;> linarith

/-- Witness for C2 at the concrete overflowing input `lat = 95`, `lon = 185`. -/
theorem wrap_one_step_postcondition_check :
    ((-180 : ℚ) ≤ 95 ∧ (95 : ℚ) ≤ 270 ∧ (-360 : ℚ) ≤ 185 ∧ (185 : ℚ) ≤ 360)
    ∧ ((-90 ≤ (wrapCoordinates 95 185).lat ∧ (wrapCoordinates 95 185).lat ≤ 90 ∧
        -180 ≤ (wrapCoordinates 95 185).lon ∧ (wrapCoordinates 95 185).lon ≤ 180)
      ∧ ((185 : ℚ) > 180 → (wrapCoordinates 95 185).lon = 185 - 360)
      ∧ ((185 : ℚ) < -180 → (wrapCoordinates 95 185).lon = 185 + 360)
      ∧ ((95 : ℚ) > 90 → (wrapCoordinates 95 185).lat = 95 - 180)
      ∧ ((95 : ℚ) < -90 → (wrapCoordinates 95 185).lat = 95 + 180)) :=
  ⟨by norm_num,
    wrap_one_step_postcondition 95 185 (by norm_num) (by norm_num) (by norm_num) (by norm_num)⟩

/-- C3: Wrap idempotence on valid input.  For `lat ∈ [-90, 90]` and
`lon ∈ [-180, 180]`, bounds inclusive (so in particular at `lat = ±90` and
`lon = ±180`), `wrapCoordinates` returns its input unchanged. -/
theorem wrap_idempotent_on_valid (lat lon : ℚ)
    (h₁ : -90 ≤ lat) (h₂ : lat ≤ 90) (h₃ : -180 ≤ lon) (h₄ : lon ≤ 180) :
    wrapCoordinates lat lon = ⟨lat, lon⟩ :=
  wrap_of_in_range lat lon h₁ h₂ h₃ h₄

/-- Witness for C3 at the boundary input `lat = 90`, `lon = -180`. -/
theorem wrap_idempotent_on_valid_check :
    ((-90 : ℚ) ≤ 90 ∧ (90 : ℚ) ≤ 90 ∧ (-180 : ℚ) ≤ -180 ∧ (-180 : ℚ) ≤ 180)
    ∧ wrapCoordinates 90 (-180) = ⟨90, -180⟩ :=
  ⟨by norm_num,
    wrap_idempotent_on_valid 90 (-180) (by norm_num) (by norm_num) (by norm_num) (by norm_num)⟩

/-- C4: Collision detector correctness.  `isCollision` returns `true` exactly
when some obstacle of the field lies at Euclidean degree-space distance
strictly less than the threshold from the candidate position; on the empty
field it returns `false`; it is total by its `Bool` return type; and the
default threshold used by `move` is `8`. -/
theorem isCollision_correct :
    (∀ (newLat newLon t : ℚ) (field : List Obstacle),
        isCollision newLat newLon field t = true ↔
          ∃ o ∈ field,
            Real.sqrt (((o.lat : ℝ) - (newLat : ℝ)) ^ 2 + ((o.lon : ℝ) - (newLon : ℝ)) ^ 2)
              < (t : ℝ))
    ∧ (∀ (newLat newLon t : ℚ) (field : List Obstacle),
        field = [] → isCollision newLat newLon field t = false)
    ∧ collisionThreshold = 8 :=
  ⟨fun newLat newLon t field => isCollision_true_iff newLat newLon t field,
    fun newLat newLon t _field h => h ▸ isCollision_nil newLat newLon t, rfl⟩

/-- Witness for C4's empty-field clause at a concrete input. -/
theorem isCollision_correct_check :
    isCollision 3 4 [] 8 = false :=
  isCollision_correct.2.1 3 4 8 [] rfl

end MarsRover

namespace MarsRover

/-! ### State-machine lemmas -/

lemma proposedLat_bounds (forward : Bool) (r : RoverPosition) (h : PosInvariant r) :
    -100 ≤ proposedLat forward r ∧ proposedLat forward r ≤ 100 := by
  obtain ⟨hA, hB, -, -⟩ := h
  unfold proposedLat moveStep
  split_ifs <;> constructor <;> linarith

lemma proposedLon_bounds (forward : Bool) (r : RoverPosition) (h : PosInvariant r) :
    -190 ≤ proposedLon forward r ∧ proposedLon forward r ≤ 190 := by
  obtain ⟨-, -, hC, hD⟩ := h
  unfold proposedLon moveStep
  split_ifs <;> constructor <;> linarith

lemma move_of_collision (forward : Bool) (field : List Obstacle) (r : RoverPosition)
    (h : isCollision (wrapCoordinates (proposedLat forward r) (proposedLon forward r)).lat
        (wrapCoordinates (proposedLat forward r) (proposedLon forward r)).lon
        field collisionThreshold = true) :
    move forward field r = r := by
  simp only [move, h, if_true]

lemma move_of_no_collision (forward : Bool) (field : List Obstacle) (r : RoverPosition)
    (h : isCollision (wrapCoordinates (proposedLat forward r) (proposedLon forward r)).lat
        (wrapCoordinates (proposedLat forward r) (proposedLon forward r)).lon
        field collisionThreshold = false) :
    move forward field r =
      { r with
        lat := (wrapCoordinates (proposedLat forward r) (proposedLon forward r)).lat,
        lon := (wrapCoordinates (proposedLat forward r) (proposedLon forward r)).lon } := by
  simp only [move, h, Bool.false_eq_true, if_false]

lemma move_preserves_inv (forward : Bool) (field : List Obstacle) (r : RoverPosition)
    (h : PosInvariant r) : PosInvariant (move forward field r) := by
  obtain ⟨hA, hB⟩ := proposedLat_bounds forward r h
  obtain ⟨hC, hD⟩ := proposedLon_bounds forward r h
  have hw := wrap_bounds (proposedLat forward r) (proposedLon forward r)
    (by linarith) (by linarith) (by linarith) (by linarith)
  simp only [move]
  split
  · exact h
  · exact ⟨hw.1, hw.2.1, hw.2.2.1, hw.2.2.2⟩

lemma rotate_preserves_inv (left : Bool) (r : RoverPosition) (h : PosInvariant r) :
    PosInvariant (rotate left r) := h

lemma step_preserves_inv (field : List Obstacle) (r : RoverPosition) (c : Command)
    (h : PosInvariant r) : PosInvariant (step field r c) := by
  cases c with
  | move forward => exact move_preserves_inv forward field r h
  | rotate left => exact rotate_preserves_inv left r h

lemma run_preserves_inv (field : List Obstacle) (cmds : List Command) (r : RoverPosition)
    (h : PosInvariant r) : PosInvariant (run field cmds r) := by
  induction cmds generalizing r with
  | nil => exact h
  | cons c cs ih => exact ih (step field r c) (step_preserves_inv field r c h)

/-- C1: Position invariant of committed state.  From the initial state
`{lat 0, lon 0, heading N}`, after any sequence of move and rotate commands
against any obstacle field, the committed position stays inside
`[-90, 90] × [-180, 180]`. -/
theorem committed_position_invariant (field : List Obstacle) (cmds : List Command) :
    -90 ≤ (run field cmds initialRoverPosition).lat ∧
      (run field cmds initialRoverPosition).lat ≤ 90 ∧
      -180 ≤ (run field cmds initialRoverPosition).lon ∧
      (run field cmds initialRoverPosition).lon ≤ 180 :=
  run_preserves_inv field cmds initialRoverPosition
    ⟨by norm_num [initialRoverPosition], by norm_num [initialRoverPosition],
      by norm_num [initialRoverPosition], by norm_num [initialRoverPosition]⟩

/-- C5: Atomicity of rejected moves.  If some obstacle lies at distance less
than the threshold from the wrapped candidate position, the move is rejected
and the state is exactly unchanged; otherwise the wrapped candidate commits
(with the heading untouched). -/
theorem move_atomicity (forward : Bool) (field : List Obstacle) (r : RoverPosition) :
    ((∃ o ∈ field,
        Real.sqrt
          (((o.lat : ℝ) -
              ((wrapCoordinates (proposedLat forward r) (proposedLon forward r)).lat : ℝ)) ^ 2 +
            ((o.lon : ℝ) -
              ((wrapCoordinates (proposedLat forward r) (proposedLon forward r)).lon : ℝ)) ^ 2)
          < (collisionThreshold : ℝ)) →
      move forward field r = r)
    ∧ ((¬ ∃ o ∈ field,
        Real.sqrt
          (((o.lat : ℝ) -
              ((wrapCoordinates (proposedLat forward r) (proposedLon forward r)).lat : ℝ)) ^ 2 +
            ((o.lon : ℝ) -
              ((wrapCoordinates (proposedLat forward r) (proposedLon forward r)).lon : ℝ)) ^ 2)
          < (collisionThreshold : ℝ)) →
      move forward field r =
        { r with
          lat := (wrapCoordinates (proposedLat forward r) (proposedLon forward r)).lat,
          lon := (wrapCoordinates (proposedLat forward r) (proposedLon forward r)).lon }) := by
  constructor
  · intro hex
    exact move_of_collision forward field r ((isCollision_true_iff _ _ _ _).mpr hex)
  · intro hnex
    refine move_of_no_collision forward field r ?_
    cases hb : isCollision (wrapCoordinates (proposedLat forward r) (proposedLon forward r)).lat
      (wrapCoordinates (proposedLat forward r) (proposedLon forward r)).lon
      field collisionThreshold with
    | false => rfl
    | true => exact absurd ((isCollision_true_iff _ _ _ _).mp hb) hnex

end MarsRover

namespace MarsRover

/-- Witness for C5: with an obstacle exactly at the wrapped candidate
`(15, 0)` the move from `(5, 0, N)` is rejected unchanged, and with no
obstacles the move from the origin commits to `(10, 0, N)`. -/
theorem move_atomicity_check :
    (∃ o ∈ [Obstacle.mk 15 0],
        Real.sqrt
          (((o.lat : ℝ) -
              ((wrapCoordinates (proposedLat true ⟨5, 0, Orientation.N⟩)
                  (proposedLon true ⟨5, 0, Orientation.N⟩)).lat : ℝ)) ^ 2 +
            ((o.lon : ℝ) -
              ((wrapCoordinates (proposedLat true ⟨5, 0, Orientation.N⟩)
                  (proposedLon true ⟨5, 0, Orientation.N⟩)).lon : ℝ)) ^ 2)
          < (collisionThreshold : ℝ))
    ∧ move true [Obstacle.mk 15 0] ⟨5, 0, Orientation.N⟩ = ⟨5, 0, Orientation.N⟩
    ∧ move true [] ⟨0, 0, Orientation.N⟩ = ⟨10, 0, Orientation.N⟩ := by
  have hw : wrapCoordinates (proposedLat true (⟨5, 0, Orientation.N⟩ : RoverPosition))
      (proposedLon true ⟨5, 0, Orientation.N⟩) = ⟨15, 0⟩ := by
    simp [wrapCoordinates, proposedLat, proposedLon, moveStep]
    norm_num
  have hex : ∃ o ∈ [Obstacle.mk 15 0],
      Real.sqrt
        (((o.lat : ℝ) -
            ((wrapCoordinates (proposedLat true ⟨5, 0, Orientation.N⟩)
                (proposedLon true ⟨5, 0, Orientation.N⟩)).lat : ℝ)) ^ 2 +
          ((o.lon : ℝ) -
            ((wrapCoordinates (proposedLat true ⟨5, 0, Orientation.N⟩)
                (proposedLon true ⟨5, 0, Orientation.N⟩)).lon : ℝ)) ^ 2)
        < (collisionThreshold : ℝ) := by
    refine ⟨⟨15, 0⟩, by simp, ?_⟩
    rw [hw]
    norm_num [collisionThreshold]
  refine ⟨hex, (move_atomicity true [Obstacle.mk 15 0] ⟨5, 0, Orientation.N⟩).1 hex, ?_⟩
  have h2 := (move_atomicity true [] (⟨0, 0, Orientation.N⟩ : RoverPosition)).2 (by simp)
  rw [h2]
  have hw0 : wrapCoordinates (proposedLat true (⟨0, 0, Orientation.N⟩ : RoverPosition))
      (proposedLon true ⟨0, 0, Orientation.N⟩) = ⟨10, 0⟩ := by
    simp [wrapCoordinates, proposedLat, proposedLon, moveStep]
    norm_num
  rw [hw0]

/-- C8: Pole-shift scenario.  From `(85, 0, N)`, moving forward with step 10
gives candidate latitude 95, which wraps to `95 - 180 = -85` with the
longitude unchanged; absent any colliding obstacle the committed state is
`(-85, 0, N)`. -/
theorem pole_shift_scenario :
    wrapCoordinates 95 0 = ⟨-85, 0⟩
    ∧ ∀ field : List Obstacle,
        isCollision (-85) 0 field collisionThreshold = false →
          move true field ⟨85, 0, Orientation.N⟩ = ⟨-85, 0, Orientation.N⟩ := by
  have hwrap : wrapCoordinates 95 0 = ⟨-85, 0⟩ := by norm_num [wrapCoordinates]
  refine ⟨hwrap, fun field h => ?_⟩
  have hp : proposedLat true (⟨85, 0, Orientation.N⟩ : RoverPosition) = 95 := by
    simp [proposedLat, moveStep]
    norm_num
  have hq : proposedLon true (⟨85, 0, Orientation.N⟩ : RoverPosition) = 0 := by
    simp [proposedLon]
  have h' : isCollision
      (wrapCoordinates (proposedLat true ⟨85, 0, Orientation.N⟩)
        (proposedLon true ⟨85, 0, Orientation.N⟩)).lat
      (wrapCoordinates (proposedLat true ⟨85, 0, Orientation.N⟩)
        (proposedLon true ⟨85, 0, Orientation.N⟩)).lon
      field collisionThreshold = false := by
    rw [hp, hq, hwrap]
    exact h
  rw [move_of_no_collision true field ⟨85, 0, Orientation.N⟩ h', hp, hq, hwrap]

/-- Witness for C8 with the empty obstacle field. -/
theorem pole_shift_scenario_check :
    isCollision (-85) 0 [] collisionThreshold = false
    ∧ move true [] ⟨85, 0, Orientation.N⟩ = ⟨-85, 0, Orientation.N⟩ :=
  ⟨rfl, pole_shift_scenario.2 [] rfl⟩

end MarsRover

namespace MarsRover

/-! ### Projection lemmas -/

lemma merc_strictMono_on (a b : ℝ) (ha : -89.99 ≤ a) (hab : a < b) (hb : b ≤ 89.99) :
    mercatorProjection a < mercatorProjection b := by
  have hpi := Real.pi_pos
  have hca : max (min a 89.99) (-89.99) = a := by
    rw [min_eq_left (by linarith), max_eq_left ha]
  have hcb : max (min b 89.99) (-89.99) = b := by
    rw [min_eq_left hb, max_eq_left (by linarith)]
  simp only [mercatorProjection, toRadians]
  rw [hca, hcb]
  have h0a : 0 < Real.pi / 4 + a * (Real.pi / 180) / 2 := by nlinarith
  have hbp : Real.pi / 4 + b * (Real.pi / 180) / 2 < Real.pi / 2 := by nlinarith
  have hab' : Real.pi / 4 + a * (Real.pi / 180) / 2 < Real.pi / 4 + b * (Real.pi / 180) / 2 := by
    nlinarith
  exact Real.log_lt_log (Real.tan_pos_of_pos_of_lt_pi_div_two h0a (lt_trans hab' hbp))
    (Real.tan_lt_tan_of_nonneg_of_lt_pi_div_two (le_of_lt h0a) hbp hab')

lemma merc_90 : mercatorProjection 90 = mercatorProjection 89.99 := by
  simp only [mercatorProjection]
  rw [show min (90 : ℝ) 89.99 = 89.99 from min_eq_right (by norm_num),
    show min (89.99 : ℝ) 89.99 = 89.99 from min_eq_right le_rfl]

lemma merc_neg90 : mercatorProjection (-90) = mercatorProjection (-89.99) := by
  simp only [mercatorProjection]
  rw [show min (-90 : ℝ) 89.99 = -90 from min_eq_left (by norm_num),
    show min (-89.99 : ℝ) 89.99 = -89.99 from min_eq_left (by norm_num),
    show max (-90 : ℝ) (-89.99) = -89.99 from max_eq_right (by norm_num),
    show max (-89.99 : ℝ) (-89.99) = -89.99 from max_eq_right le_rfl]

lemma merc_diff_pos : 0 < mercatorProjection 90 - mercatorProjection (-90) := by
  rw [merc_90, merc_neg90]
  have := merc_strictMono_on (-89.99) 89.99 le_rfl (by norm_num) le_rfl
  linarith

/-- C9: Projection monotonicity.  For `lat1 < lat2` both strictly inside the
clamp range `(-89.99, 89.99)`, the normalized vertical coordinate
`normalizedY` satisfies `normalizedY lat1 > normalizedY lat2`: north maps to
smaller `y`. -/
theorem projection_monotone (lat1 lat2 : ℝ)
    (h₁ : -89.99 < lat1) (h₂ : lat1 < lat2) (h₃ : lat2 < 89.99) :
    normalizedY lat1 > normalizedY lat2 := by
  have hm : mercatorProjection lat1 < mercatorProjection lat2 :=
    merc_strictMono_on lat1 lat2 (le_of_lt h₁) h₂ (le_of_lt h₃)
  have hD : 0 < mercatorProjection 90 - mercatorProjection (-90) := merc_diff_pos
  simp only [normalizedY, gt_iff_lt]
  have key :
      (mercatorProjection lat1 - mercatorProjection (-90)) /
          (mercatorProjection 90 - mercatorProjection (-90)) <
        (mercatorProjection lat2 - mercatorProjection (-90)) /
          (mercatorProjection 90 - mercatorProjection (-90)) := by
    gcongr
  linarith

/-- Witness for C9 at the concrete latitudes `0 < 50`. -/
theorem projection_monotone_check :
    ((-89.99 : ℝ) < 0 ∧ (0 : ℝ) < 50 ∧ (50 : ℝ) < 89.99)
    ∧ normalizedY 0 > normalizedY 50 :=
  ⟨by norm_num, projection_monotone 0 50 (by norm_num) (by norm_num) (by norm_num)⟩

end MarsRover

namespace MarsRover

/-! ### Round-trip lemmas (C10) -/

lemma wrapCoordinates_eq (latitude longitude : ℚ) :
    wrapCoordinates latitude longitude = ⟨wrapLat latitude, wrapLon longitude⟩ := rfl

lemma wrapLat_id (x : ℚ) (h₁ : -90 ≤ x) (h₂ : x ≤ 90) : wrapLat x = x := by
  unfold wrapLat
  split_ifs <;> linarith

lemma wrapLon_id (x : ℚ) (h₁ : -180 ≤ x) (h₂ : x ≤ 180) : wrapLon x = x := by
  unfold wrapLon
  split_ifs <;> linarith

lemma wrapLat_up_down (x : ℚ) (h₁ : -90 ≤ x) (h₂ : x < 90) :
    wrapLat (wrapLat (x + 10) - 10) = x := by
  unfold wrapLat
  split_ifs <;> linarith

lemma wrapLat_down_up (x : ℚ) (h₁ : -90 < x) (h₂ : x ≤ 90) :
    wrapLat (wrapLat (x - 10) + 10) = x := by
  unfold wrapLat
  split_ifs <;> linarith

lemma wrapLon_up_down (x : ℚ) (h₁ : -180 ≤ x) (h₂ : x < 180) :
    wrapLon (wrapLon (x + 10) - 10) = x := by
  unfold wrapLon
  split_ifs <;> linarith

lemma wrapLon_down_up (x : ℚ) (h₁ : -180 < x) (h₂ : x ≤ 180) :
    wrapLon (wrapLon (x - 10) + 10) = x := by
  unfold wrapLon
  split_ifs <;> linarith

lemma proposedLat_N_true (lat lon : ℚ) :
    proposedLat true ⟨lat, lon, Orientation.N⟩ = lat + 10 := by
  simp [proposedLat, moveStep]

lemma proposedLat_N_false (lat lon : ℚ) :
    proposedLat false ⟨lat, lon, Orientation.N⟩ = lat - 10 := by
  simp [proposedLat, moveStep]
  ring

lemma proposedLon_N (forward : Bool) (lat lon : ℚ) :
    proposedLon forward ⟨lat, lon, Orientation.N⟩ = lon := by
  simp [proposedLon]

lemma proposedLat_S_true (lat lon : ℚ) :
    proposedLat true ⟨lat, lon, Orientation.S⟩ = lat - 10 := by
  simp [proposedLat, moveStep]
  ring

lemma proposedLat_S_false (lat lon : ℚ) :
    proposedLat false ⟨lat, lon, Orientation.S⟩ = lat + 10 := by
  simp [proposedLat, moveStep]

lemma proposedLon_S (forward : Bool) (lat lon : ℚ) :
    proposedLon forward ⟨lat, lon, Orientation.S⟩ = lon := by
  simp [proposedLon]

lemma proposedLon_E_true (lat lon : ℚ) :
    proposedLon true ⟨lat, lon, Orientation.E⟩ = lon + 10 := by
  simp [proposedLon, moveStep]

lemma proposedLon_E_false (lat lon : ℚ) :
    proposedLon false ⟨lat, lon, Orientation.E⟩ = lon - 10 := by
  simp [proposedLon, moveStep]
  ring

lemma proposedLat_E (forward : Bool) (lat lon : ℚ) :
    proposedLat forward ⟨lat, lon, Orientation.E⟩ = lat := by
  simp [proposedLat]

lemma proposedLon_W_true (lat lon : ℚ) :
    proposedLon true ⟨lat, lon, Orientation.W⟩ = lon - 10 := by
  simp [proposedLon, moveStep]
  ring

lemma proposedLon_W_false (lat lon : ℚ) :
    proposedLon false ⟨lat, lon, Orientation.W⟩ = lon + 10 := by
  simp [proposedLon, moveStep]

lemma proposedLat_W (forward : Bool) (lat lon : ℚ) :
    proposedLat forward ⟨lat, lon, Orientation.W⟩ = lat := by
  simp [proposedLat]

end MarsRover

namespace MarsRover

/-- C10, counterexample to the claim as stated.  The state `(90, 0, N)`
satisfies the Position invariant; with no obstacles both `Move(forward)` and
`Move(backward)` commit (an empty field never collides, so each committed
state is the wrapped candidate), yet the round trip ends at `(-90, 0, N)`,
not at the original `(90, 0, N)`: the forward move wraps `100` to `-80`, but
the backward candidate `-90` is already in range, so the wrap does not shift
it back. -/
theorem roundTrip_counterexample :
    PosInvariant (⟨90, 0, Orientation.N⟩ : RoverPosition)
    ∧ move true [] ⟨90, 0, Orientation.N⟩ = ⟨-80, 0, Orientation.N⟩
    ∧ move false [] ⟨-80, 0, Orientation.N⟩ = ⟨-90, 0, Orientation.N⟩
    ∧ (⟨-90, 0, Orientation.N⟩ : RoverPosition) ≠ ⟨90, 0, Orientation.N⟩ := by
  refine ⟨⟨by norm_num, by norm_num, by norm_num, by norm_num⟩, ?_, ?_, ?_⟩
  · rw [move_of_no_collision true [] _ rfl, proposedLat_N_true, proposedLon_N,
      wrapCoordinates_eq]
    norm_num [wrapLat, wrapLon]
  · rw [move_of_no_collision false [] _ rfl, proposedLat_N_false, proposedLon_N,
      wrapCoordinates_eq]
    norm_num [wrapLat, wrapLon]
  · intro h
    rw [RoverPosition.mk.injEq] at h
    norm_num at h

/-- C10 as amended: the forward/backward round trip restores the position for
every state satisfying the Position invariant whose moving coordinate is not
at the far boundary in the direction of travel (`lat < 90` for N, `-90 < lat`
for S, `lon < 180` for E, `-180 < lon` for W), provided both moves commit
(no collision on either wrapped candidate).  At the four excluded boundary
states the backward candidate lands exactly on the opposite boundary and is
not wrapped back, so the round trip ends 180 (or 360) degrees away. -/
theorem roundTrip_forward_backward (field : List Obstacle) (r : RoverPosition)
    (hinv : PosInvariant r)
    (hN : r.orientation = Orientation.N → r.lat < 90)
    (hS : r.orientation = Orientation.S → -90 < r.lat)
    (hE : r.orientation = Orientation.E → r.lon < 180)
    (hW : r.orientation = Orientation.W → -180 < r.lon)
    (h₁ : isCollision (wrapCoordinates (proposedLat true r) (proposedLon true r)).lat
        (wrapCoordinates (proposedLat true r) (proposedLon true r)).lon
        field collisionThreshold = false)
    (h₂ : isCollision
        (wrapCoordinates (proposedLat false (move true field r))
          (proposedLon false (move true field r))).lat
        (wrapCoordinates (proposedLat false (move true field r))
          (proposedLon false (move true field r))).lon
        field collisionThreshold = false) :
    (move false field (move true field r)).lat = r.lat
    ∧ (move false field (move true field r)).lon = r.lon := by
  obtain ⟨lat, lon, o⟩ := r
  obtain ⟨hA, hB, hC, hD⟩ := hinv
  cases o with
  | N =>
    have e1 : move true field ⟨lat, lon, Orientation.N⟩
        = ⟨wrapLat (lat + 10), wrapLon lon, Orientation.N⟩ := by
      rw [move_of_no_collision true field _ h₁, proposedLat_N_true, proposedLon_N,
        wrapCoordinates_eq]
    rw [e1] at h₂ ⊢
    have e2 : move false field ⟨wrapLat (lat + 10), wrapLon lon, Orientation.N⟩
        = ⟨wrapLat (wrapLat (lat + 10) - 10), wrapLon (wrapLon lon), Orientation.N⟩ := by
      rw [move_of_no_collision false field _ h₂, proposedLat_N_false, proposedLon_N,
        wrapCoordinates_eq]
    rw [e2]
    exact ⟨wrapLat_up_down lat hA (hN rfl),
      by rw [wrapLon_id lon hC hD, wrapLon_id lon hC hD]⟩
  | S =>
    have e1 : move true field ⟨lat, lon, Orientation.S⟩
        = ⟨wrapLat (lat - 10), wrapLon lon, Orientation.S⟩ := by
      rw [move_of_no_collision true field _ h₁, proposedLat_S_true, proposedLon_S,
        wrapCoordinates_eq]
    rw [e1] at h₂ ⊢
    have e2 : move false field ⟨wrapLat (lat - 10), wrapLon lon, Orientation.S⟩
        = ⟨wrapLat (wrapLat (lat - 10) + 10), wrapLon (wrapLon lon), Orientation.S⟩ := by
      rw [move_of_no_collision false field _ h₂, proposedLat_S_false, proposedLon_S,
        wrapCoordinates_eq]
    rw [e2]
    exact ⟨wrapLat_down_up lat (hS rfl) hB,
      by rw [wrapLon_id lon hC hD, wrapLon_id lon hC hD]⟩
  | E =>
    have e1 : move true field ⟨lat, lon, Orientation.E⟩
        = ⟨wrapLat lat, wrapLon (lon + 10), Orientation.E⟩ := by
      rw [move_of_no_collision true field _ h₁, proposedLat_E, proposedLon_E_true,
        wrapCoordinates_eq]
    rw [e1] at h₂ ⊢
    have e2 : move false field ⟨wrapLat lat, wrapLon (lon + 10), Orientation.E⟩
        = ⟨wrapLat (wrapLat lat), wrapLon (wrapLon (lon + 10) - 10), Orientation.E⟩ := by
      rw [move_of_no_collision false field _ h₂, proposedLat_E, proposedLon_E_false,
        wrapCoordinates_eq]
    rw [e2]
    exact ⟨by rw [wrapLat_id lat hA hB, wrapLat_id lat hA hB],
      wrapLon_up_down lon hC (hE rfl)⟩
  | W =>
    have e1 : move true field ⟨lat, lon, Orientation.W⟩
        = ⟨wrapLat lat, wrapLon (lon - 10), Orientation.W⟩ := by
      rw [move_of_no_collision true field _ h₁, proposedLat_W, proposedLon_W_true,
        wrapCoordinates_eq]
    rw [e1] at h₂ ⊢
    have e2 : move false field ⟨wrapLat lat, wrapLon (lon - 10), Orientation.W⟩
        = ⟨wrapLat (wrapLat lat), wrapLon (wrapLon (lon - 10) + 10), Orientation.W⟩ := by
      rw [move_of_no_collision false field _ h₂, proposedLat_W, proposedLon_W_false,
        wrapCoordinates_eq]
    rw [e2]
    exact ⟨by rw [wrapLat_id lat hA hB, wrapLat_id lat hA hB],
      wrapLon_down_up lon (hW rfl) hD⟩

/-- Witness for the amended C10 at `(85, 0, N)` with no obstacles: the
forward move wraps across the pole to `-85` and the backward move wraps
back, restoring the position. -/
theorem roundTrip_forward_backward_check :
    (move false [] (move true [] ⟨85, 0, Orientation.N⟩)).lat = 85
    ∧ (move false [] (move true [] ⟨85, 0, Orientation.N⟩)).lon = 0 :=
  roundTrip_forward_backward [] ⟨85, 0, Orientation.N⟩
    ⟨by norm_num, by norm_num, by norm_num, by norm_num⟩
    (fun _ => by norm_num) (fun h => by simp at h) (fun h => by simp at h)
    (fun h => by simp at h) rfl rfl

end MarsRover
